import Mathlib

/-!
Verification development for the `project_alice` autonomous agent.

The definitions below are a shallow embedding of the Python sources:
`src/main.py` (the orchestration state machine built on a langgraph
`StateGraph`), `src/tools.py` (the built-in capabilities),
`src/state.py` (the session state record) and
`sub_agents/memory_service.py` (the two-stage retrieval service).

External collaborators (the HTTP reasoning provider, `json.loads`,
the Chroma similarity search, the cross-encoder scorer, subprocess
execution, the human operator at `input()`) are modelled as explicit
parameters of the functions that consume them, so every function here
is a pure function of the session state plus those inputs, exactly
mirroring the branching of the Python code.
-/

namespace ProjectAlice

/-- Python substring containment (`pat in hay`) on exploded characters. -/
def charsContain (pat : List Char) : List Char → Bool
  | [] => pat.isEmpty
  | c :: rest => pat.isPrefixOf (c :: rest) || charsContain pat rest

/-- Python `pat in hay` for strings. -/
def strOccurs (hay pat : String) : Bool := charsContain pat.data hay.data

/-- Python `s.lower()`. -/
def pyLower (s : String) : String := ⟨s.data.map Char.toLower⟩

/-- Python `s.startswith(pre)`. -/
def pyStartsWith (s pre : String) : Bool := pre.data.isPrefixOf s.data

/-- A parsed tool call as built in `invoke_llm` (src/main.py:183-197):
`name` and `id` come from `.get(...)` on the provider payload (hence
optional), `args` is the result of `json.loads` on the serialized
arguments with `{}` as the fallback for malformed encodings. -/
structure ToolCall where
  name : Option String
  args : List (String × String)
  id : Option String
deriving DecidableEq, Repr

/-- The message variants used by the state machine (langchain
`HumanMessage`, `AIMessage`, `ToolMessage`). -/
inductive Message where
  | human (content : String)
  | ai (content : String) (tool_calls : List ToolCall)
  | tool (tool_call_id : String) (name : String) (content : String)
deriving DecidableEq, Repr

/-- `message.tool_calls` as accessed by the routing code; only
`AIMessage` carries tool calls. -/
def Message.toolCalls : Message → List ToolCall
  | .ai _ tcs => tcs
  | _ => []

/-- `message.content`. -/
def Message.contentOf : Message → String
  | .human c => c
  | .ai c _ => c
  | .tool _ _ c => c

/-- The session state (`AgentState` in src/state.py plus the
`replan_attempts` / `failed_actions` keys that src/main.py reads and
writes on it). -/
structure AgentState where
  user_goal : String
  messages : List Message
  final_report : String
  plan : String
  completed_plan_steps : List String
  replan_attempts : Nat
  failed_actions : List String
deriving DecidableEq, Repr

/-- Routing labels returned by the conditional-edge functions of the
graph; `finish` is the label `"end"`, mapped to the
`final_report_generator` node. -/
inductive Route where
  | assistance
  | permission
  | finish
  | planner
  | tool_executor
  | handle_error
  | mark_step_complete
  | replan
  | circuit_breaker
deriving DecidableEq, Repr

/-- src/main.py:127. -/
def DANGEROUS_TOOLS : List String := ["write_file", "execute_script", "run_shell_command"]

/-- src/main.py:129. -/
def MAX_REPLAN_ATTEMPTS : Nat := 3

/-- src/main.py:360. -/
def exit_keywords : List String := ["conclude", "final answer", "stop", "end", "exit"]

/-- `check_for_tool_error` (src/main.py:367-376): route to the error
handler only when the stringified tool result contains one of four
literal substrings. -/
def check_for_tool_error (s : AgentState) : Route :=
  match s.messages.getLast? with
  | some (.tool _ _ content) =>
      if strOccurs content "\"status\": \"error\"" || strOccurs content "\"error\":"
          || strOccurs content "\"result\": \"No" || strOccurs content "Search returned an empty URL"
      then Route.handle_error
      else Route.mark_step_complete
  | _ => Route.planner

/-- JSON values, used both for capability result dictionaries and for
reasoning-provider response bodies. -/
inductive JVal where
  | jstr (s : String)
  | jnum (n : Int)
  | jbool (b : Bool)
  | jnull
  | jarr (elems : List JVal)
  | jobj (fields : List (String × JVal))
deriving Repr

/-- `json.dumps` escaping of one character (the characters relevant to
this code base). -/
def jescChar (c : Char) : String :=
  if c = '"' then "\\\"" else if c = '\\' then "\\\\"
  else if c = '\n' then "\\n" else if c = '\t' then "\\t" else if c = '\r' then "\\r"
  else String.singleton c

/-- `json.dumps` escaping of a string body. -/
def jesc (s : String) : String := String.join (s.data.map jescChar)

mutual

/-- `json.dumps(v)` with the default separators, as langgraph's
`ToolNode` applies it to a dict returned by a capability before
storing it as `ToolMessage.content`. -/
def jdump : JVal → String
  | .jstr s => "\"" ++ jesc s ++ "\""
  | .jnum n => toString n
  | .jbool b => if b then "true" else "false"
  | .jnull => "null"
  | .jarr es => "[" ++ jdumpElems es ++ "]"
  | .jobj fs => "\x7b" ++ jdumpFields fs ++ "\x7d"

/-- Comma-joined array elements of `json.dumps`. -/
def jdumpElems : List JVal → String
  | [] => ""
  | [e] => jdump e
  | e :: rest => jdump e ++ ", " ++ jdumpElems rest

/-- Comma-joined `"key": value` fields of `json.dumps`. -/
def jdumpFields : List (String × JVal) → String
  | [] => ""
  | [(k, v)] => "\"" ++ jesc k ++ "\": " ++ jdump v
  | (k, v) :: rest => "\"" ++ jesc k ++ "\": " ++ jdump v ++ ", " ++ jdumpFields rest

end

/-- `dict.get(key)` on a JSON object: `none` when the key is absent or
the value is not an object. -/
def jlookup (j : JVal) (k : String) : Option JVal :=
  match j with
  | .jobj fs => fs.lookup k
  | _ => none

/-- Outcome of the `subprocess.run(["python", file_path] + args, ..., check=True)`
call inside `execute_script` (src/tools.py:149-162). -/
inductive ScriptRun where
  | completed (returncode : Int) (stdout stderr : String)
  | pythonNotFound
  | otherException (msg : String)
deriving Repr

/-- `execute_script` (src/tools.py:141-162), as the result dictionary it
returns; `fileExists` is the `os.path.exists(file_path)` test. With
`check=True`, `subprocess.run` raises `CalledProcessError` exactly when
the return code is non-zero. -/
def execute_script (file_path : String) (fileExists : Bool) (run : ScriptRun) : JVal :=
  if !fileExists then
    .jobj [("status", .jstr "error"),
           ("error", .jstr ("Script not found at path: " ++ file_path))]
  else
    match run with
    | .completed rc out err =>
        if rc = 0 then
          .jobj [("status", .jstr "success"), ("stdout", .jstr out), ("stderr", .jstr err)]
        else
          .jobj [("status", .jstr "script_error"), ("stdout", .jstr out),
                 ("stderr", .jstr err), ("return_code", .jnum rc),
                 ("category", .jstr "execution_error")]
    | .pythonNotFound =>
        .jobj [("status", .jstr "execution_error"),
               ("error", .jstr "The \x27python\x27 command was not found. Is Python installed and in your PATH?"),
               ("category", .jstr "env_error")]
    | .otherException m =>
        .jobj [("status", .jstr "execution_error"), ("error", .jstr m),
               ("category", .jstr "unknown_error")]

/-- Outcome of `subprocess.run(shlex.split(command), ..., check=True)` inside
`run_shell_command` (src/tools.py:164-182). -/
inductive ShellRun where
  | completed (returncode : Int) (stdout stderr : String)
  | commandNotFound (cmd : String)
  | otherException (msg : String)
deriving Repr

/-- `run_shell_command` (src/tools.py:164-182), as the result dictionary
it returns. -/
def run_shell_command (run : ShellRun) : JVal :=
  match run with
  | .completed rc out err =>
      if rc = 0 then
        .jobj [("status", .jstr "success"), ("stdout", .jstr out), ("stderr", .jstr err)]
      else
        .jobj [("status", .jstr "command_error"), ("stdout", .jstr out),
               ("stderr", .jstr err), ("return_code", .jnum rc),
               ("category", .jstr "command_error")]
  | .commandNotFound cmd =>
      .jobj [("status", .jstr "execution_error"),
             ("error", .jstr ("Command not found: \x27" ++ cmd ++ "\x27. Please ensure it is installed and in your PATH.")),
             ("category", .jstr "env_error")]
  | .otherException m =>
      .jobj [("status", .jstr "execution_error"), ("error", .jstr m),
             ("category", .jstr "unknown_error")]

/-- The session state reached right after `tool_executor` ran
`execute_script` on a script that exited with code 1 and wrote `boom`
to stderr: the `ToolMessage` content is the `json.dumps` of the
`script_error` result dictionary. -/
def c1_failing_state : AgentState :=
  { user_goal := "run the script"
    messages :=
      [ Message.ai "" [⟨some "execute_script", [("file_path", "my_script.py")], some "call_1"⟩],
        Message.tool "call_1" "execute_script"
          (jdump (execute_script "my_script.py" true (.completed 1 "" "boom"))) ]
    final_report := ""
    plan := "1. Run my_script.py"
    completed_plan_steps := []
    replan_attempts := 0
    failed_actions := [] }

/-! ## Reasoning client (`invoke_llm`, src/main.py:167-202)

The HTTP interaction is modelled as a `ProviderOutcome`: either the
`requests.post` call raised a `requests.exceptions.RequestException`
(network/transport failure, timeout), or a response with a status code
and a body arrived. `raise_for_status` raises `HTTPError` (a
`RequestException`) exactly for status codes in `[400, 600)`;
`response.json()` on a syntactically invalid body raises
`requests.exceptions.JSONDecodeError`, also a `RequestException`.
All of these are caught by the single `except RequestException`
handler and degrade to a synthetic `AIMessage`. Anything the handler
does not catch (`KeyError`, `IndexError`, `TypeError`,
`AttributeError` from navigating a well-formed JSON body of the wrong
shape) is an `Except.error`. `json.loads` on the serialized tool
arguments is the parameter `dec`; the code falls back to `{}` when it
raises `JSONDecodeError`. -/

/-- Body of an HTTP response: either not parseable as JSON at all, or a
parsed JSON value. -/
inductive BodyVal where
  | invalidJson (raw : String)
  | valid (j : JVal)
deriving Repr

/-- Outcome of the `requests.post` call in `invoke_llm`. -/
inductive ProviderOutcome where
  | requestExc (msg : String)
  | response (status : Nat) (body : BodyVal)
deriving Repr

/-- The synthetic assistant message built by the `except` handler of
`invoke_llm` (src/main.py:200-202). -/
def apiFailureMessage (e : String) : Message :=
  .ai ("Error: The API call failed with an exception: " ++ e) []

/-- Parsing of one raw provider tool call (src/main.py:185-197):
`function_call = call.get("function", {})`, arguments default `"{}"`,
`json.loads` falling back to `{}` on `JSONDecodeError`; a name that is
absent or not a string behaves as `None` in every later comparison. -/
def parseCall (dec : String → Option (List (String × String))) (call : JVal) :
    Except String ToolCall :=
  match call with
  | .jobj fs =>
      let theId := match fs.lookup "id" with
                   | some (.jstr s) => some s
                   | _ => none
      match fs.lookup "function" with
      | none =>
          .ok ⟨none, (dec "\x7b\x7d").getD [], theId⟩
      | some (.jobj gs) =>
          let theName := match gs.lookup "name" with
                         | some (.jstr s) => some s
                         | _ => none
          match gs.lookup "arguments" with
          | some (.jstr s) => .ok ⟨theName, (dec s).getD [], theId⟩
          | none => .ok ⟨theName, (dec "\x7b\x7d").getD [], theId⟩
          | some _ => .error "TypeError: the JSON object must be str, bytes or bytearray"
      | some _ => .error "AttributeError: \x27function\x27 value has no attribute \x27get\x27"
  | _ => .error "AttributeError: tool call entry has no attribute \x27get\x27"

/-- The loop over `message_data["tool_calls"]` in `invoke_llm`. -/
def parseToolCalls (dec : String → Option (List (String × String))) (calls : List JVal) :
    Except String (List ToolCall) :=
  calls.mapM (parseCall dec)

/-- `invoke_llm` (src/main.py:167-202). `Except.ok` is a returned
`AIMessage`; `Except.error` is an exception escaping the function. -/
def invoke_llm (dec : String → Option (List (String × String))) (o : ProviderOutcome) :
    Except String Message :=
  match o with
  | .requestExc e => .ok (apiFailureMessage e)
  | .response status body =>
      if 400 ≤ status ∧ status < 600 then
        .ok (apiFailureMessage (toString status ++ " Error for url: http://localhost:1234/v1/chat/completions"))
      else
        match body with
        | .invalidJson raw => .ok (apiFailureMessage ("Expecting value: " ++ raw))
        | .valid j =>
            match jlookup j "choices" with
            | some (.jarr (c :: _)) =>
                match c with
                | .jobj cf =>
                    match cf.lookup "message" with
                    | some (.jobj mf) =>
                        let content := match mf.lookup "content" with
                                       | some (.jstr s) => s
                                       | _ => ""
                        match mf.lookup "tool_calls" with
                        | some (.jarr calls) => (parseToolCalls dec calls).map (Message.ai content)
                        | some (.jstr s) =>
                            if s = "" then .ok (.ai content [])
                            else .error "AttributeError: str tool call entry has no attribute \x27get\x27"
                        | some (.jnum n) =>
                            if n = 0 then .ok (.ai content [])
                            else .error "TypeError: \x27int\x27 object is not iterable"
                        | some (.jbool b) =>
                            if b then .error "TypeError: \x27bool\x27 object is not iterable"
                            else .ok (.ai content [])
                        | some (.jobj fs2) =>
                            if fs2.isEmpty then .ok (.ai content [])
                            else .error "AttributeError: str key has no attribute \x27get\x27"
                        | some .jnull => .ok (.ai content [])
                        | none => .ok (.ai content [])
                    | some _ => .error "AttributeError: \x27message\x27 value has no attribute \x27get\x27"
                    | none => .error "KeyError: \x27message\x27"
                | _ => .error "TypeError: choice entry is not subscriptable by \x27message\x27"
            | some (.jarr []) => .error "IndexError: list index out of range"
            | some _ => .error "TypeError: \x27choices\x27 value is not subscriptable by 0"
            | none => .error "KeyError: \x27choices\x27"

/-- A well-formed 2xx provider body whose single choice carries
`content` and the given raw tool-call list. -/
def mkBody (content : String) (calls : List JVal) : JVal :=
  .jobj [("choices", .jarr [.jobj [("message",
    .jobj [("content", .jstr content), ("tool_calls", .jarr calls)])]])]

/-! ## Orchestration nodes (src/main.py) -/

/-- `create_plan` (src/main.py:206-221): stores the reasoning output as
the plan and resets the message log to `[]`. -/
def create_plan (s : AgentState) (planText : String) : AgentState :=
  { s with plan := planText, messages := [] }

/-- `planner` (src/main.py:280-313): appends the reasoning response to
the message log. -/
def planner (s : AgentState) (response : Message) : AgentState :=
  { s with messages := s.messages ++ [response] }

/-- The history compaction inside `replan` (src/main.py:268-272):
`[HumanMessage(summary)] + messages[-10:]` when more than 10 messages. -/
def pruneMessages (ms : List Message) : List Message :=
  if ms.length > 10 then
    .human "Summary of early history: Initial attempts failed due to tool errors; proceeding with revised plan."
      :: ms.drop (ms.length - 10)
  else ms

/-- `replan` (src/main.py:238-278): new plan text, `replan_attempts`
incremented by exactly one, compacted messages. -/
def replan (s : AgentState) (newPlan : String) : AgentState :=
  { s with plan := newPlan,
           replan_attempts := s.replan_attempts + 1,
           messages := pruneMessages s.messages }

/-- The denial message injected by `request_permission` (src/main.py:347). -/
def denialMessage (tool_name : String) : Message :=
  .human ("The user has denied permission to run the \x27" ++ tool_name
    ++ "\x27 tool. Please choose a different approach.")

/-- `request_permission` (src/main.py:326-351). The `input()` loop until
`y`/`n` is the boolean `approve`. On denial the pending invocation
(`messages[:-1]`) is discarded and the denial message appended. -/
def request_permission (s : AgentState) (approve : Bool) : AgentState :=
  match s.messages.getLast? with
  | none => s
  | some last =>
      match last.toolCalls.head? with
      | none => s
      | some tc =>
          match tc.name with
          | some n =>
              if n ∈ DANGEROUS_TOOLS then
                if approve then s
                else { s with messages := s.messages.dropLast ++ [denialMessage n] }
              else s
          | none => s

/-- `handle_circuit_breaker` (src/main.py:384-398). The operator input
is `guidance`; `'exit'` appends the literal `exit` message and keeps
every other field; any other guidance is appended and resets
`replan_attempts` to 0. -/
def handle_circuit_breaker (s : AgentState) (guidance : String) : AgentState :=
  if pyLower guidance = "exit" then
    { s with messages := s.messages ++ [.human "exit"] }
  else
    { s with messages := s.messages ++ [.human guidance], replan_attempts := 0 }

/-- `handle_human_assistance` (src/main.py:400-414): replaces the
assistance request with the operator response. -/
def handle_human_assistance (s : AgentState) (response : String) : AgentState :=
  match s.messages.getLast? with
  | none => s
  | some last =>
      if last.toolCalls.isEmpty then s
      else { s with messages := s.messages.dropLast ++ [.human response] }

/-- Python `repr` of the argument dict as interpolated into the
completed-step summary. -/
def reprArgs (args : List (String × String)) : String :=
  "\x7b" ++ String.intercalate ", "
    (args.map (fun kv => "\x27" ++ kv.1 ++ "\x27: \x27" ++ kv.2 ++ "\x27")) ++ "\x7d"

/-- `mark_step_complete` (src/main.py:416-432): summarises
`messages[-2]` when it is an `AIMessage` with a tool call. -/
def mark_step_complete (s : AgentState) : AgentState :=
  if s.messages.length < 2 then s
  else
    match s.messages[s.messages.length - 2]? with
    | some (.ai _ (tc :: _)) =>
        let tool_name := tc.name.getD "None"
        let summary := "Executed tool `" ++ tool_name ++ "` with arguments `"
          ++ reprArgs tc.args ++ "`."
        { s with completed_plan_steps := s.completed_plan_steps ++ [summary] }
    | _ => s

/-- The error-category classification inside `handle_error`
(src/main.py:449-458). -/
def classifyError (content : String) : String :=
  if strOccurs content "401" || strOccurs content "Unauthorized" then
    "Authentication failure (e.g., invalid API key)"
  else if strOccurs content "403" || strOccurs content "Forbidden" then
    "Access forbidden (e.g., blocked site)"
  else if strOccurs content "429" || strOccurs content "Too Many Requests" then
    "Rate limit exceeded"
  else if strOccurs content "404" || strOccurs content "Not Found" then
    "Resource not found"
  else "Unknown error"

/-- `handle_error` (src/main.py:434-465): records the failed tool name
(if new) and appends a diagnostic message with the category. -/
def handle_error (s : AgentState) : AgentState :=
  let lastContent := match s.messages.getLast? with
                     | some m => m.contentOf
                     | none => ""
  let failed_tool_name :=
    if s.messages.length > 1 then
      match s.messages[s.messages.length - 2]? with
      | some (.ai _ (tc :: _)) => tc.name.getD "unknown_tool"
      | _ => "unknown_tool"
    else "unknown_tool"
  let failed_actions :=
    if failed_tool_name ∈ s.failed_actions then s.failed_actions
    else s.failed_actions ++ [failed_tool_name]
  let error_message := "The last tool call failed with the following output:\n\n"
    ++ lastContent ++ "\n\nError Category: " ++ classifyError lastContent
    ++ "\nPlease analyze this error and create a plan to recover."
  { s with messages := s.messages ++ [.human error_message],
           failed_actions := failed_actions }

/-- `execute_tools` (src/main.py:467-474): the `ToolNode` result
messages are appended to the log. -/
def execute_tools (s : AgentState) (results : List Message) : AgentState :=
  { s with messages := s.messages ++ results }

/-- `generate_final_report` (src/main.py:476-512); `final_answer` is the
reasoning output for the report prompt. -/
def generate_final_report (s : AgentState) (final_answer : String) : AgentState :=
  let steps := if s.completed_plan_steps.isEmpty then "No steps were executed."
               else String.intercalate "\n" (s.completed_plan_steps.map (fun st => "- " ++ st))
  { s with final_report := "# Agent Final Report\n\n## User Goal\n> " ++ s.user_goal
      ++ "\n\n## Executed Steps\n" ++ steps
      ++ "\n\n## Agent\x27s Final Answer\n" ++ final_answer }

/-! ## Conditional-edge routing functions (src/main.py) -/

/-- `route_after_planner` (src/main.py:315-324). -/
def route_after_planner (s : AgentState) : Route :=
  match s.messages.getLast? with
  | none => Route.finish
  | some last =>
      match last.toolCalls.head? with
      | none => Route.finish
      | some tc =>
          if tc.name = some "request_human_assistance" then Route.assistance
          else Route.permission

/-- `after_permission_check` (src/main.py:378-382). -/
def after_permission_check (s : AgentState) : Route :=
  match s.messages.getLast? with
  | some (.human _) => Route.planner
  | _ => Route.tool_executor

/-- First `HumanMessage` content in the given order (used on the
reversed log, mirroring the `for message in reversed(...)` scan). -/
def findHuman : List Message → String
  | [] => ""
  | .human c :: _ => c
  | _ :: rest => findHuman rest

/-- Content of the most recent `HumanMessage`, or `""`. -/
def lastHumanContent (ms : List Message) : String := findHuman ms.reverse

/-- `check_for_exit` (src/main.py:353-365). -/
def check_for_exit (s : AgentState) : Route :=
  let last_human := pyLower (lastHumanContent s.messages)
  if exit_keywords.any (fun k => strOccurs last_human k) then Route.finish
  else Route.replan

/-- `route_after_replan` (src/main.py:514-518). -/
def route_after_replan (s : AgentState) : Route :=
  if s.replan_attempts ≥ MAX_REPLAN_ATTEMPTS then Route.circuit_breaker
  else Route.planner

/-! ## One transition step of the state machine

Each graph node together with the external inputs it consumes
(reasoning output, operator input, tool results). `applyNode` is the
state update the node performs; routing between nodes is by the
conditional-edge functions above. -/

/-- A graph node invocation with its external inputs. -/
inductive NodeStep where
  | create_plan (planText : String)
  | planner (response : Message)
  | replan (newPlan : String)
  | tool_executor (results : List Message)
  | mark_step_complete
  | handle_human_assistance (operator_response : String)
  | request_permission (approve : Bool)
  | handle_error
  | handle_circuit_breaker (guidance : String)
  | final_report_generator (final_answer : String)
deriving Repr

/-- The state update performed by one node invocation. -/
def applyNode : NodeStep → AgentState → AgentState
  | .create_plan p, s => create_plan s p
  | .planner r, s => planner s r
  | .replan p, s => replan s p
  | .tool_executor rs, s => execute_tools s rs
  | .mark_step_complete, s => mark_step_complete s
  | .handle_human_assistance r, s => handle_human_assistance s r
  | .request_permission b, s => request_permission s b
  | .handle_error, s => handle_error s
  | .handle_circuit_breaker g, s => handle_circuit_breaker s g
  | .final_report_generator a, s => generate_final_report s a

/-- The circuit-breaker steering path: operator guidance other than
`exit` (src/main.py:392-398). -/
def isSteeringOverride : NodeStep → Bool
  | .handle_circuit_breaker g => !(pyLower g == "exit")
  | _ => false

/-! ## Retrieval service (sub_agents/memory_service.py) and the
memory capability (src/tools.py:20-40) -/

/-- A stored passage (langchain `Document`: `page_content` plus
metadata). -/
structure Doc where
  page_content : String
  metadata : List (String × String)
deriving DecidableEq, Repr

/-- JSON reply of the `/query` endpoint: an `error` object or a
`relevant_context` list. -/
inductive QueryResponse where
  | queryError (msg : String)
  | relevant_context (docs : List Doc)
deriving DecidableEq, Repr

/-- The relation under which Python sorts the `(score, doc)` pairs:
`sorted(..., key=lambda x: x[0], reverse=True)` places pairs with the
larger first component first and, being stable, keeps the original
order on ties. -/
def scoreDesc (a b : Int × Doc) : Prop := b.1 ≤ a.1

instance : DecidableRel scoreDesc := fun a b => inferInstanceAs (Decidable (b.1 ≤ a.1))

instance : IsTotal (Int × Doc) scoreDesc := ⟨fun a b => le_total b.1 a.1⟩

instance : IsTrans (Int × Doc) scoreDesc := ⟨fun _ _ _ hab hbc => le_trans hbc hab⟩

/-- `query_memory` (sub_agents/memory_service.py:56-72). `simSearch` is
`db.similarity_search` (called with `k=10`), `crossScore` is
`cross_encoder.predict` on one `(query, content)` pair. Python's
`sorted` is a stable sort, so it is modelled by the stable
`List.insertionSort` under `scoreDesc`, which is extensionally the
same function. -/
def query_memory (simSearch : String → Nat → List Doc)
    (crossScore : String → String → Int) (query : String) : QueryResponse :=
  let retrieved_docs := simSearch query 10
  if retrieved_docs.isEmpty then .relevant_context []
  else
    let doc_contents := retrieved_docs.map (·.page_content)
    let scores := doc_contents.map (fun d => crossScore query d)
    let scored_docs := List.insertionSort scoreDesc (scores.zip retrieved_docs)
    .relevant_context ((scored_docs.take 3).map (·.2))

/-- Outcome of the HTTP round trip in `retrieve_from_memory`
(src/tools.py:26-27): `requests.post` plus `raise_for_status` either
raises a `RequestException` (transport failure or non-2xx) or yields
the service's JSON reply. -/
inductive MemoryOutcome where
  | requestExc (msg : String)
  | success (resp : QueryResponse)
deriving Repr

/-- The three result-dictionary shapes `retrieve_from_memory` returns. -/
inductive ToolResult where
  | errorResult (msg : String)
  | result (msg : String)
  | relevantContext (ctx : String)
deriving DecidableEq, Repr

/-- `retrieve_from_memory` (src/tools.py:20-40): joins the returned
passages with the `\n\n---\n\n` delimiter in rank order, and maps an
empty joined context to the explicit nothing-found result. -/
def retrieve_from_memory (o : MemoryOutcome) : ToolResult :=
  match o with
  | .requestExc e => .errorResult ("Failed to connect to memory service: " ++ e)
  | .success (.queryError e) => .errorResult e
  | .success (.relevant_context docs) =>
      let context := String.intercalate "\n\n---\n\n" (docs.map (·.page_content))
      if context = "" then .result "No relevant information found in memory."
      else .relevantContext context

/-! ## `write_file` (src/tools.py:106-139)

The filesystem is a finite map from path to content. In the
capability-synthesis branch (`'generated_tools' in file_path` and
`content.startswith('def ')`) the code builds the frontmatter and then
calls `update_manifest(metadata)`; `update_manifest` is defined in
`src/main.py` and is neither imported nor defined in `src/tools.py`,
so the call raises `NameError("name 'update_manifest' is not
defined")` before `os.makedirs`/`open` run. The `except Exception`
handler turns it into the error dictionary. -/

/-- `write_file` (src/tools.py:106-139): returns the updated filesystem
and the result dictionary. -/
def write_file (fs : List (String × String)) (file_path content : String) :
    List (String × String) × JVal :=
  if strOccurs file_path "generated_tools" && pyStartsWith content "def " then
    (fs, .jobj [("error", .jstr ("Failed to write to file \x27" ++ file_path
                  ++ "\x27: name \x27update_manifest\x27 is not defined")),
                ("category", .jstr "file_error")])
  else
    ((fs.filter (fun p => p.1 != file_path)) ++ [(file_path, content)],
     .jobj [("status", .jstr "success"), ("file_path", .jstr file_path)])

/-! ## Claims -/

/-- C1: the claim states that every tool result carrying an explicit
error discriminator is routed to `HandleError`, in particular the
non-zero-exit failures of `execute_script`. Evaluating the code at
such a failure shows the opposite: the `script_error` result of a
script that exited with code 1 contains none of the four substrings
`check_for_tool_error` searches for, so the Classify step routes it to
`mark_step_complete`. -/
theorem c1_nonzero_exit_failure_marked_complete :
    check_for_tool_error c1_failing_state = Route.mark_step_complete := by
  decide

/-- C4: whenever `replan_attempts` has reached `MAX_REPLAN_ATTEMPTS`
(= 3), `route_after_replan` routes to the circuit breaker and never
directly back to the planner (the Decide step). -/
theorem c4_replan_cap_routes_to_circuit_breaker (s : AgentState)
    (h : MAX_REPLAN_ATTEMPTS ≤ s.replan_attempts) :
    route_after_replan s = Route.circuit_breaker ∧
    route_after_replan s ≠ Route.planner := by
  unfold route_after_replan
  rw [if_pos h]
  exact ⟨rfl, by simp⟩

/-- Witness for C4 at `replan_attempts = 3`. -/
theorem c4_replan_cap_witness :
    MAX_REPLAN_ATTEMPTS ≤ (3 : Nat) ∧
    route_after_replan ⟨"g", [], "", "p", [], 3, []⟩ = Route.circuit_breaker :=
  ⟨by decide, (c4_replan_cap_routes_to_circuit_breaker ⟨"g", [], "", "p", [], 3, []⟩ (by decide)).1⟩

/-- C9: any `write_file` call whose path contains `generated_tools` and
whose content starts with `def ` hits the frontmatter branch, which
calls the undefined name `update_manifest`; the resulting `NameError`
is caught and returned as an error dictionary, and the filesystem is
left unchanged because the branch raises before `os.makedirs`/`open`
run. -/
theorem c9_tool_synthesis_write_fails_unchanged
    (fs : List (String × String)) (file_path content : String)
    (hpath : strOccurs file_path "generated_tools" = true)
    (hdef : pyStartsWith content "def " = true) :
    (write_file fs file_path content).1 = fs ∧
    (write_file fs file_path content).2 =
      JVal.jobj [("error", .jstr ("Failed to write to file \x27" ++ file_path
                    ++ "\x27: name \x27update_manifest\x27 is not defined")),
                 ("category", .jstr "file_error")] := by
  unfold write_file
  rw [hpath, hdef]
  exact ⟨rfl, rfl⟩

/-- Witness for C9 on a concrete generated-tool write. -/
theorem c9_tool_synthesis_write_witness :
    strOccurs "src/generated_tools/foo.py" "generated_tools" = true ∧
    pyStartsWith "def foo(): pass" "def " = true ∧
    (write_file [("a.txt", "x")] "src/generated_tools/foo.py" "def foo(): pass").1
      = [("a.txt", "x")] :=
  ⟨by decide, by decide,
    (c9_tool_synthesis_write_fails_unchanged [("a.txt", "x")]
      "src/generated_tools/foo.py" "def foo(): pass" (by decide) (by decide)).1⟩

/-- C10: operator input `exit` at the circuit breaker appends the
single human message `exit`, leaves every other state field unchanged
(in particular `replan_attempts` is not reset on this path), and the
subsequent exit-keyword scan `check_for_exit` returns the `end` label,
which the graph maps to the report generator. -/
theorem c10_circuit_breaker_exit_frame (s : AgentState) :
    (handle_circuit_breaker s "exit").messages = s.messages ++ [Message.human "exit"] ∧
    (handle_circuit_breaker s "exit").replan_attempts = s.replan_attempts ∧
    (handle_circuit_breaker s "exit").user_goal = s.user_goal ∧
    (handle_circuit_breaker s "exit").plan = s.plan ∧
    (handle_circuit_breaker s "exit").completed_plan_steps = s.completed_plan_steps ∧
    (handle_circuit_breaker s "exit").failed_actions = s.failed_actions ∧
    (handle_circuit_breaker s "exit").final_report = s.final_report ∧
    check_for_exit (handle_circuit_breaker s "exit") = Route.finish := by
  unfold handle_circuit_breaker
  rw [if_pos (by decide : pyLower "exit" = "exit")]
  refine ⟨rfl, rfl, rfl, rfl, rfl, rfl, rfl, ?_⟩
  simp only [check_for_exit, lastHumanContent, List.reverse_append, List.reverse_cons,
    List.reverse_nil, List.nil_append, List.cons_append, findHuman]
  rfl

/-- C3: on a denied dangerous invocation, `request_permission` replaces
the pending tool call with the denial message, `after_permission_check`
routes back to the planner (never to the tool executor), and the most
recent log entry handed to the next Decide is the denial explanation. -/
theorem c3_denial_discards_and_routes_to_planner (s : AgentState) (c : String)
    (tc : ToolCall) (tcs : List ToolCall) (n : String)
    (hlast : s.messages.getLast? = some (Message.ai c (tc :: tcs)))
    (hname : tc.name = some n)
    (hdang : n ∈ DANGEROUS_TOOLS) :
    after_permission_check (request_permission s false) = Route.planner ∧
    after_permission_check (request_permission s false) ≠ Route.tool_executor ∧
    (request_permission s false).messages = s.messages.dropLast ++ [denialMessage n] ∧
    (request_permission s false).messages.getLast? = some (denialMessage n) := by
  have hreq : request_permission s false
      = { s with messages := s.messages.dropLast ++ [denialMessage n] } := by
    unfold request_permission
    rw [hlast]
    show (match tc.name with
          | some n => if n ∈ DANGEROUS_TOOLS then
              if False then s else { s with messages := s.messages.dropLast ++ [denialMessage n] }
            else s
          | none => s) = _
    rw [hname]
    simp only [if_pos hdang, if_false]
  have hgl : (s.messages.dropLast ++ [denialMessage n]).getLast? = some (denialMessage n) := by
    simp
  refine ⟨?_, ?_, by rw [hreq], by rw [hreq]; exact hgl⟩
  · unfold after_permission_check
    rw [hreq]
    show (match (s.messages.dropLast ++ [denialMessage n]).getLast? with
          | some (.human _) => Route.planner
          | _ => Route.tool_executor) = _
    rw [hgl]
    simp [denialMessage]
  · unfold after_permission_check
    rw [hreq]
    show (match (s.messages.dropLast ++ [denialMessage n]).getLast? with
          | some (.human _) => Route.planner
          | _ => Route.tool_executor) ≠ _
    rw [hgl]
    simp [denialMessage]

/-- The concrete pre-denial state used by the C3 witness. -/
def c3_state : AgentState :=
  ⟨"g", [Message.ai "writing now"
          [⟨some "write_file", [("file_path", "x.txt"), ("content", "y")], some "call_9"⟩]],
   "", "p", [], 0, []⟩

/-- Witness for C3 on a concrete denied `write_file` invocation. -/
theorem c3_denial_witness :
    after_permission_check (request_permission c3_state false) = Route.planner ∧
    (request_permission c3_state false).messages
      = c3_state.messages.dropLast ++ [denialMessage "write_file"] :=
  ⟨(c3_denial_discards_and_routes_to_planner c3_state "writing now"
      ⟨some "write_file", [("file_path", "x.txt"), ("content", "y")], some "call_9"⟩ []
      "write_file" rfl rfl (by decide)).1,
   (c3_denial_discards_and_routes_to_planner c3_state "writing now"
      ⟨some "write_file", [("file_path", "x.txt"), ("content", "y")], some "call_9"⟩ []
      "write_file" rfl rfl (by decide)).2.2.1⟩

/-- `request_permission` never changes the replan counter. -/
theorem request_permission_attempts (s : AgentState) (b : Bool) :
    (request_permission s b).replan_attempts = s.replan_attempts := by
  unfold request_permission
  repeat' split
  all_goals rfl

/-- `handle_human_assistance` never changes the replan counter. -/
theorem handle_human_assistance_attempts (s : AgentState) (r : String) :
    (handle_human_assistance s r).replan_attempts = s.replan_attempts := by
  unfold handle_human_assistance
  repeat' split
  all_goals rfl

/-- `mark_step_complete` never changes the replan counter. -/
theorem mark_step_complete_attempts (s : AgentState) :
    (mark_step_complete s).replan_attempts = s.replan_attempts := by
  unfold mark_step_complete
  repeat' split
  all_goals rfl

/-- Case analysis of the effect of every node on `replan_attempts`:
increment by exactly one (only `replan`), unchanged, or the steering
reset to zero (only the circuit-breaker non-exit path). -/
theorem applyNode_attempts (step : NodeStep) (s : AgentState) :
    ((applyNode step s).replan_attempts = s.replan_attempts + 1 ∧ ∃ p, step = NodeStep.replan p)
    ∨ ((applyNode step s).replan_attempts = s.replan_attempts ∧ isSteeringOverride step = false
        ∧ ∀ p, step ≠ NodeStep.replan p)
    ∨ ((applyNode step s).replan_attempts = 0 ∧ isSteeringOverride step = true
        ∧ ∀ p, step ≠ NodeStep.replan p) := by
  cases step with
  | replan p => exact .inl ⟨rfl, p, rfl⟩
  | handle_circuit_breaker g =>
      by_cases h : pyLower g = "exit"
      · refine .inr (.inl ⟨?_, ?_, fun p hp => nomatch hp⟩)
        · simp [applyNode, handle_circuit_breaker, h]
        · simp [isSteeringOverride, h]
      · refine .inr (.inr ⟨?_, ?_, fun p hp => nomatch hp⟩)
        · simp [applyNode, handle_circuit_breaker, h]
        · simp [isSteeringOverride, h]
  | create_plan p => exact .inr (.inl ⟨rfl, rfl, fun p hp => nomatch hp⟩)
  | planner r => exact .inr (.inl ⟨rfl, rfl, fun p hp => nomatch hp⟩)
  | tool_executor rs => exact .inr (.inl ⟨rfl, rfl, fun p hp => nomatch hp⟩)
  | mark_step_complete =>
      exact .inr (.inl ⟨mark_step_complete_attempts s, rfl, fun p hp => nomatch hp⟩)
  | handle_human_assistance r =>
      exact .inr (.inl ⟨handle_human_assistance_attempts s r, rfl, fun p hp => nomatch hp⟩)
  | request_permission b =>
      exact .inr (.inl ⟨request_permission_attempts s b, rfl, fun p hp => nomatch hp⟩)
  | handle_error => exact .inr (.inl ⟨rfl, rfl, fun p hp => nomatch hp⟩)
  | final_report_generator a => exact .inr (.inl ⟨rfl, rfl, fun p hp => nomatch hp⟩)

/-- C5: per node transition, `replan_attempts` increases by exactly 1
on `replan`, is non-decreasing on every path that is not the
circuit-breaker steering override, changes only on `replan` among
those paths, and is reset to 0 by the steering override. -/
theorem c5_replan_attempts_discipline (step : NodeStep) (s : AgentState) :
    (∀ p, step = NodeStep.replan p →
        (applyNode step s).replan_attempts = s.replan_attempts + 1) ∧
    (isSteeringOverride step = false →
        s.replan_attempts ≤ (applyNode step s).replan_attempts) ∧
    (isSteeringOverride step = false →
        (applyNode step s).replan_attempts ≠ s.replan_attempts →
        ∃ p, step = NodeStep.replan p) ∧
    (isSteeringOverride step = true → (applyNode step s).replan_attempts = 0) := by
  rcases applyNode_attempts step s with ⟨h1, p, hp⟩ | ⟨h1, h2, h3⟩ | ⟨h1, h2, h3⟩
  · subst hp
    refine ⟨fun q hq => h1, fun _ => ?_, fun _ _ => ⟨p, rfl⟩, fun hs => ?_⟩
    · rw [h1]; exact Nat.le_succ _
    · exact absurd hs (by simp [isSteeringOverride])
  · exact ⟨fun q hq => absurd hq (h3 q), fun _ => le_of_eq h1.symm,
      fun _ hne => absurd h1 hne, fun hs => absurd hs (by simp [h2])⟩
  · exact ⟨fun q hq => absurd hq (h3 q),
      fun hf => absurd hf (by simp [h2]),
      fun hf _ => absurd hf (by simp [h2]),
      fun _ => h1⟩

/-- Witness for C5: a replan increments 1 → 2; a steering override at
the circuit breaker resets 3 → 0. -/
theorem c5_replan_attempts_witness :
    (applyNode (NodeStep.replan "new plan") ⟨"g", [], "", "p", [], 1, []⟩).replan_attempts = 2 ∧
    isSteeringOverride (NodeStep.handle_circuit_breaker "try the other tool") = true ∧
    (applyNode (NodeStep.handle_circuit_breaker "try the other tool")
        ⟨"g", [], "", "p", [], 3, []⟩).replan_attempts = 0 :=
  ⟨(c5_replan_attempts_discipline (NodeStep.replan "new plan")
      ⟨"g", [], "", "p", [], 1, []⟩).1 "new plan" rfl,
   by decide,
   (c5_replan_attempts_discipline (NodeStep.handle_circuit_breaker "try the other tool")
      ⟨"g", [], "", "p", [], 3, []⟩).2.2.2 (by decide)⟩

/-- C7: when the stage-1 similarity search returns no candidates, the
service short-circuits to an empty `relevant_context` — independently
of the reranker, which is therefore never consulted — and the memory
capability turns that into the explicit nothing-found result, never an
error. -/
theorem c7_empty_store_nothing_found
    (simSearch : String → Nat → List Doc) (crossScore : String → String → Int)
    (query : String) (hempty : simSearch query 10 = []) :
    query_memory simSearch crossScore query = QueryResponse.relevant_context [] ∧
    (∀ crossScore2, query_memory simSearch crossScore2 query
        = query_memory simSearch crossScore query) ∧
    retrieve_from_memory (MemoryOutcome.success (query_memory simSearch crossScore query))
      = ToolResult.result "No relevant information found in memory." ∧
    (∀ msg, retrieve_from_memory (MemoryOutcome.success (query_memory simSearch crossScore query))
        ≠ ToolResult.errorResult msg) := by
  have h1 : ∀ cs : String → String → Int,
      query_memory simSearch cs query = QueryResponse.relevant_context [] := by
    intro cs
    simp only [query_memory, hempty]
    rfl
  refine ⟨h1 crossScore, fun cs2 => by rw [h1 cs2, h1 crossScore], ?_, ?_⟩
  · rw [h1 crossScore]
    rfl
  · rw [h1 crossScore]
    intro msg
    simp only [retrieve_from_memory, List.map_nil]
    rw [show ("\n\n---\n\n".intercalate ([] : List String)) = "" from rfl]
    simp

/-- Witness for C7 on a concrete empty store. -/
theorem c7_empty_store_witness :
    query_memory (fun _ _ => []) (fun _ _ => 0) "q" = QueryResponse.relevant_context [] ∧
    retrieve_from_memory (MemoryOutcome.success (query_memory (fun _ _ => []) (fun _ _ => 0) "q"))
      = ToolResult.result "No relevant information found in memory." :=
  ⟨(c7_empty_store_nothing_found (fun _ _ => []) (fun _ _ => 0) "q" rfl).1,
   (c7_empty_store_nothing_found (fun _ _ => []) (fun _ _ => 0) "q" rfl).2.2.1⟩

/-- In `(l.map g).zip l`, every pair's first component is `g` of its
second component. -/
theorem zipMapFst {α β : Type} (g : α → β) :
    ∀ (l : List α) (p : β × α), p ∈ (l.map g).zip l → p.1 = g p.2 := by
  intro l
  induction l with
  | nil => intro p hp; simp at hp
  | cons a as ih =>
      intro p hp
      rw [List.map_cons, List.zip_cons_cons] at hp
      rcases List.mem_cons.mp hp with h | h
      · rw [h]
      · exact ih p h

/-- C6: against a populated store the service takes the top-10
similarity candidates, scores each with the cross-encoder, sorts the
pairs by score descending (stably), keeps the first 3, and the
capability concatenates their contents in rank order with the
`\n\n---\n\n` delimiter; the returned passages number at most 3 and
are pairwise in descending reranker-score order. -/
theorem c6_two_stage_rerank
    (simSearch : String → Nat → List Doc) (crossScore : String → String → Int)
    (query : String) (hne : simSearch query 10 ≠ []) :
    ∃ docs : List Doc,
      query_memory simSearch crossScore query = QueryResponse.relevant_context docs ∧
      docs = ((List.insertionSort scoreDesc
                ((((simSearch query 10).map (·.page_content)).map
                    (fun d => crossScore query d)).zip (simSearch query 10))).take 3).map (·.2) ∧
      docs.length ≤ 3 ∧
      docs.Pairwise (fun d1 d2 =>
        crossScore query d2.page_content ≤ crossScore query d1.page_content) ∧
      (String.intercalate "\n\n---\n\n" (docs.map (·.page_content)) ≠ "" →
        retrieve_from_memory (MemoryOutcome.success (query_memory simSearch crossScore query))
          = ToolResult.relevantContext
              (String.intercalate "\n\n---\n\n" (docs.map (·.page_content)))) := by
  have hne' : ¬ ((simSearch query 10).isEmpty = true) := by
    simp only [List.isEmpty_iff]
    exact hne
  have hqm : query_memory simSearch crossScore query
      = QueryResponse.relevant_context
          (((List.insertionSort scoreDesc
              ((((simSearch query 10).map (·.page_content)).map
                  (fun d => crossScore query d)).zip (simSearch query 10))).take 3).map (·.2)) := by
    simp only [query_memory]
    rw [if_neg hne']
  refine ⟨_, hqm, rfl, ?_, ?_, ?_⟩
  · rw [List.length_map, List.length_take]
    exact min_le_left _ _
  · have hp : List.Pairwise scoreDesc
        (List.insertionSort scoreDesc
          ((((simSearch query 10).map (·.page_content)).map
              (fun d => crossScore query d)).zip (simSearch query 10))) :=
      List.sorted_insertionSort scoreDesc _
    have hmem : ∀ p ∈ List.insertionSort scoreDesc
        ((((simSearch query 10).map (·.page_content)).map
            (fun d => crossScore query d)).zip (simSearch query 10)),
        p.1 = crossScore query p.2.page_content := by
      intro p hp2
      have hpz : p ∈ (((simSearch query 10).map (·.page_content)).map
          (fun d => crossScore query d)).zip (simSearch query 10) :=
        ((List.perm_insertionSort scoreDesc _).mem_iff).mp hp2
      rw [List.map_map] at hpz
      exact zipMapFst (fun d => crossScore query d.page_content) (simSearch query 10) p
        (by simpa [Function.comp] using hpz)
    have hp2 : (List.insertionSort scoreDesc
        ((((simSearch query 10).map (·.page_content)).map
            (fun d => crossScore query d)).zip (simSearch query 10))).Pairwise
        (fun a b : Int × Doc =>
          crossScore query b.2.page_content ≤ crossScore query a.2.page_content) := by
      refine List.Pairwise.imp_of_mem ?_ hp
      intro a b ha hb hr
      rw [← hmem a ha, ← hmem b hb]
      exact hr
    exact List.pairwise_map.mpr (hp2.sublist (List.take_sublist _ _))
  · intro hctx
    rw [hqm]
    simp only [retrieve_from_memory]
    rw [if_neg hctx]

/-- Witness for C6 on a concrete two-document store with a
length-based score: the longer passage is returned first. -/
theorem c6_two_stage_witness :
    ∃ docs : List Doc,
      query_memory (fun _ _ => [⟨"a", []⟩, ⟨"bb", []⟩])
          (fun _ d => (d.length : Int)) "q" = QueryResponse.relevant_context docs ∧
      docs = ((List.insertionSort scoreDesc
                (((([⟨"a", []⟩, ⟨"bb", []⟩] : List Doc).map (·.page_content)).map
                    (fun d => ((fun (_ : String) (d2 : String) => (d2.length : Int)) "q" d))).zip
                  ([⟨"a", []⟩, ⟨"bb", []⟩] : List Doc))).take 3).map (·.2) ∧
      docs.length ≤ 3 ∧
      docs.Pairwise (fun d1 d2 =>
        (d2.page_content.length : Int) ≤ (d1.page_content.length : Int)) ∧
      (String.intercalate "\n\n---\n\n" (docs.map (·.page_content)) ≠ "" →
        retrieve_from_memory (MemoryOutcome.success
            (query_memory (fun _ _ => [⟨"a", []⟩, ⟨"bb", []⟩])
              (fun _ d => (d.length : Int)) "q"))
          = ToolResult.relevantContext
              (String.intercalate "\n\n---\n\n" (docs.map (·.page_content)))) :=
  c6_two_stage_rerank (fun _ _ => [⟨"a", []⟩, ⟨"bb", []⟩])
    (fun _ d => (d.length : Int)) "q" (by decide)

/-- Length preservation of monadic map in the `Except` monad. -/
theorem exceptMapMLength {α β : Type} (f : α → Except String β) :
    ∀ (l : List α) (res : List β), l.mapM f = Except.ok res → res.length = l.length := by
  intro l
  induction l with
  | nil =>
      intro res h
      have h' : Except.ok ([] : List β) = Except.ok res := h
      cases h'
      rfl
  | cons a as ih =>
      intro res h
      rw [List.mapM_cons] at h
      cases hfa : f a with
      | error e =>
          rw [hfa] at h
          have h' : (Except.error e : Except String (List β)) = Except.ok res := h
          cases h'
      | ok x =>
          rw [hfa] at h
          cases hl : List.mapM f as with
          | error e =>
              rw [hl] at h
              have h' : (Except.error e : Except String (List β)) = Except.ok res := h
              cases h'
          | ok xs =>
              rw [hl] at h
              have h' : Except.ok (x :: xs) = Except.ok res := h
              cases h'
              simp [ih xs hl]

/-- A provider message carrying two raw tool calls (both with the empty
argument object). -/
def c2_two_call_body : JVal :=
  mkBody ""
    [ .jobj [("id", .jstr "call_1"),
             ("function", .jobj [("name", .jstr "search_the_web"), ("arguments", .jstr "\x7b\x7d")])],
      .jobj [("id", .jstr "call_2"),
             ("function", .jobj [("name", .jstr "add_to_memory"), ("arguments", .jstr "\x7b\x7d")])] ]

/-- C2 counterexample: when the reasoning provider returns two tool
calls in one response, `invoke_llm` parses and attaches both, so the
assistant message produced by the Decide step carries two pending
capability invocations — the claimed at-most-one bound is not enforced
by the code. -/
theorem c2_counterexample_two_pending_invocations :
    invoke_llm (fun s => if s = "\x7b\x7d" then some [] else none)
        (ProviderOutcome.response 200 (BodyVal.valid c2_two_call_body))
      = Except.ok (Message.ai ""
          [⟨some "search_the_web", [], some "call_1"⟩,
           ⟨some "add_to_memory", [], some "call_2"⟩]) ∧
    ¬ (([⟨some "search_the_web", [], some "call_1"⟩,
         ⟨some "add_to_memory", [], some "call_2"⟩] : List ToolCall).length ≤ 1) :=
  ⟨rfl, by decide⟩

/-- C2 (amended): the Decide step attaches exactly one parsed
invocation per tool call in the provider response; the at-most-one
bound therefore holds exactly when the provider itself returns at most
one tool call. -/
theorem c2_amended_one_invocation_per_provider_call
    (dec : String → Option (List (String × String))) (status : Nat) (content : String)
    (calls : List JVal) (hstatus : ¬ (400 ≤ status ∧ status < 600)) :
    invoke_llm dec (ProviderOutcome.response status (BodyVal.valid (mkBody content calls)))
      = (parseToolCalls dec calls).map (Message.ai content) ∧
    (∀ res, parseToolCalls dec calls = Except.ok res →
      res.length = calls.length ∧ (calls.length ≤ 1 → res.length ≤ 1)) := by
  constructor
  · simp only [invoke_llm, mkBody]
    rw [if_neg hstatus]
    rfl
  · intro res h
    have hlen := exceptMapMLength (parseCall dec) calls res h
    exact ⟨hlen, fun hc => hlen ▸ hc⟩

/-- The single-call provider payload used by the C2 witness. -/
def c2_single_call : List JVal :=
  [ .jobj [("id", .jstr "call_1"),
           ("function", .jobj [("name", .jstr "search_the_web"), ("arguments", .jstr "\x7b\x7d")])] ]

/-- Witness for the amended C2 at one provider tool call. -/
theorem c2_amended_witness :
    invoke_llm (fun _ => some []) (ProviderOutcome.response 200 (BodyVal.valid (mkBody "hi" c2_single_call)))
      = (parseToolCalls (fun _ => some []) c2_single_call).map (Message.ai "hi") ∧
    (∀ res, parseToolCalls (fun _ => some []) c2_single_call = Except.ok res →
      res.length = c2_single_call.length ∧ (c2_single_call.length ≤ 1 → res.length ≤ 1)) :=
  c2_amended_one_invocation_per_provider_call (fun _ => some []) 200 "hi" c2_single_call (by decide)

/-- C8 counterexample: a 2xx response whose body is valid JSON but has
no `choices` key makes `invoke_llm` raise an uncaught `KeyError`
(modelled as `Except.error`) — the failure escapes the call instead of
degrading to a synthetic assistant message. -/
theorem c8_counterexample_keyerror_escapes :
    invoke_llm (fun _ => none) (ProviderOutcome.response 200 (BodyVal.valid (JVal.jobj [])))
      = Except.error "KeyError: \x27choices\x27" := rfl

/-- A list is a prefix of itself followed by anything. -/
theorem charsIsPrefixOfAppend : ∀ (l m : List Char), l.isPrefixOf (l ++ m) = true := by
  intro l m
  induction l with
  | nil => simp [List.isPrefixOf]
  | cons c cs ih => simp [List.isPrefixOf, ih]

/-- `pyStartsWith` holds for any extension of the prefix. -/
theorem pyStartsWithAppend (a b : String) : pyStartsWith (a ++ b) a = true := by
  simp only [pyStartsWith, String.data_append]
  exact charsIsPrefixOfAppend a.data b.data

/-- The synthetic failure content is never the empty string. -/
theorem errPrefixNonempty (e : String) :
    ("Error: The API call failed with an exception: " ++ e) ≠ "" := by
  intro hc
  have hd := congrArg String.data hc
  rw [String.data_append] at hd
  rcases List.append_eq_nil.mp hd with ⟨h1, _⟩
  exact absurd h1 (by decide)

/-- C8 (amended): transport failures, non-2xx responses and
syntactically invalid JSON bodies all degrade — inside the single,
unretried provider call — to a content-bearing synthetic assistant
message with no tool calls; only a well-formed JSON body of the wrong
shape escapes as an exception (see the counterexample). -/
theorem c8_amended_caught_failures_degrade
    (dec : String → Option (List (String × String))) (o : ProviderOutcome)
    (h : (∃ e, o = ProviderOutcome.requestExc e)
        ∨ (∃ status body, o = ProviderOutcome.response status body ∧ 400 ≤ status ∧ status < 600)
        ∨ (∃ status raw, o = ProviderOutcome.response status (BodyVal.invalidJson raw))) :
    ∃ c, invoke_llm dec o = Except.ok (Message.ai c []) ∧
      pyStartsWith c "Error: The API call failed with an exception: " = true ∧ c ≠ "" := by
  rcases h with ⟨e, rfl⟩ | ⟨status, body, rfl, h4, h6⟩ | ⟨status, raw, rfl⟩
  · exact ⟨"Error: The API call failed with an exception: " ++ e, rfl,
      pyStartsWithAppend _ _, errPrefixNonempty _⟩
  · refine ⟨"Error: The API call failed with an exception: "
        ++ (toString status ++ " Error for url: http://localhost:1234/v1/chat/completions"), ?_,
      pyStartsWithAppend _ _, errPrefixNonempty _⟩
    simp only [invoke_llm]
    rw [if_pos ⟨h4, h6⟩]
    rfl
  · by_cases hs : 400 ≤ status ∧ status < 600
    · refine ⟨"Error: The API call failed with an exception: "
          ++ (toString status ++ " Error for url: http://localhost:1234/v1/chat/completions"), ?_,
        pyStartsWithAppend _ _, errPrefixNonempty _⟩
      simp only [invoke_llm]
      rw [if_pos hs]
      rfl
    · refine ⟨"Error: The API call failed with an exception: " ++ ("Expecting value: " ++ raw), ?_,
        pyStartsWithAppend _ _, errPrefixNonempty _⟩
      simp only [invoke_llm]
      rw [if_neg hs]
      rfl

/-- Witness for the amended C8 at a concrete transport failure. -/
theorem c8_amended_witness :
    ∃ c, invoke_llm (fun _ => none) (ProviderOutcome.requestExc "Connection refused")
        = Except.ok (Message.ai c []) ∧
      pyStartsWith c "Error: The API call failed with an exception: " = true ∧ c ≠ "" :=
  c8_amended_caught_failures_degrade (fun _ => none)
    (ProviderOutcome.requestExc "Connection refused") (Or.inl ⟨"Connection refused", rfl⟩)

end ProjectAlice
